import Mathlib

/-!
Shallow embedding of the goshadertoy shared-memory frame transport
(src/shmframe/shm_muxer.c, src/shmframe/shmframe.c, src/shmframe/protocol.h)
and proofs about its producer/consumer protocol.

Conventions:
* C machine integers are modelled as `Nat`/`Int`; for the quantities the
  producer computes itself (semaphore counts, buffer sizes, occupancies)
  the values are small and non-negative in every execution considered, so
  no wrap-around arises there.  The one place where wrap-around matters is
  the consumer's bounds check on a wire-supplied descriptor, where the C
  code adds a uint64_t offset and a uint32_t size modulo 2^64; that
  addition is modelled with an explicit `% 2 ^ 64`.
* Byte buffers are `List Nat` (one `Nat` per byte).
* The muxer/demuxer sources use a `FrameHeader` with a `uint64_t offset`
  field and per-channel names in `SHMHeader` (the checked-in protocol.h is
  an older iteration of the same record without the offset field); the
  embedding follows the fields the .c code actually reads and writes.
-/

namespace Shmframe

/-- NUM_BUFFERS from shm_muxer.c line 23: the ring buffer has 3 slots. -/
def NUM_BUFFERS : Nat := 3

/-! ## Semaphore-pair state machine (claim C1)

One channel (video and audio are symmetric instances).  `free` is the value
of the "empty" semaphore, `ready` the value of the "full" semaphore, and
`inFlight` is 1 exactly while one side holds a slot between its `sem_wait`
and the matching `sem_post`. -/

structure SemState where
  free : Nat
  ready : Nat
  inFlight : Nat
  deriving DecidableEq, Repr

/-- Initial semaphore values created by shm_write_header:
sem_open(empty, O_CREAT, 0666, NUM_BUFFERS) at lines 164/212 and
sem_open(full, O_CREAT, 0666, 0) at lines 165/213. -/
def semInit : SemState := ⟨NUM_BUFFERS, 0, 0⟩

/-- One producer or consumer semaphore operation, as performed by the code.

* `prodAcquire`: sem_wait(empty_sem) in shm_write_packet line 229 /
  write_full_audio_frame line 66.
* `prodPublish`: sem_post(full_sem) in shm_write_packet line 243 /
  write_full_audio_frame line 89, after the payload copy and descriptor
  write.
* `consAcquire`: sem_wait(full_sem) in shm_read_packet lines 188/206.
* `consReleaseOk`: sem_post(empty_sem) on the successful read path,
  shm_read_packet lines 202/220.
* `consBoundsReject`: sem_post(empty_sem) on the bounds-rejection error
  path, shm_read_packet lines 192/210, before returning AVERROR(EINVAL).
* `consAllocFail`: sem_post(empty_sem) on the av_new_packet failure path,
  shm_read_packet lines 197/215, before returning the error. -/
inductive SemStep : SemState → SemState → Prop
  | prodAcquire (f r i : Nat) : SemStep ⟨f + 1, r, i⟩ ⟨f, r, i + 1⟩
  | prodPublish (f r i : Nat) : SemStep ⟨f, r, i + 1⟩ ⟨f, r + 1, i⟩
  | consAcquire (f r i : Nat) : SemStep ⟨f, r + 1, i⟩ ⟨f, r, i + 1⟩
  | consReleaseOk (f r i : Nat) : SemStep ⟨f, r, i + 1⟩ ⟨f + 1, r, i⟩
  | consBoundsReject (f r i : Nat) : SemStep ⟨f, r, i + 1⟩ ⟨f + 1, r, i⟩
  | consAllocFail (f r i : Nat) : SemStep ⟨f, r, i + 1⟩ ⟨f + 1, r, i⟩

/-- States reachable from the freshly created semaphore pair. -/
def SemReachable (s : SemState) : Prop :=
  Relation.ReflTransGen SemStep semInit s

/-! ## Audio frame packer (claims C2 and C9, audio path)

Byte-level model of the audio branch of shm_write_packet (lines 244-258),
write_full_audio_frame (lines 63-99) and the audio flush in
shm_write_trailer (lines 267-275).  The internal accumulation buffer is a
`List Nat` of bytes; `pts` is pts_counter_audio (starts at 0, line 124,
and only ever grows by samples_per_buffer, so it stays non-negative). -/

structure PackerState where
  buf : List Nat
  pts : Nat
  deriving DecidableEq, Repr

/-- frame_buffer_size_audio from shm_write_header line 177:
samples_per_buffer * channels * (bit_depth / 8). -/
def frame_buffer_size_audio (spb channels bytesPerSample : Nat) : Nat :=
  spb * channels * bytesPerSample

/-- Loop of shm_write_packet lines 253-258: while occupancy >= frame size,
write_full_audio_frame extracts one frame from the head of the buffer
(memcpy at line 75 of the first frameSize bytes), stamps it with the
current pts counter and advances the counter by samples_per_buffer
(lines 80-81), then shifts the remainder to the buffer head (lines 94-97).
The C loop repeats until occupancy < frameSize; since each iteration
removes frameSize >= 1 bytes, `fuel := buf.length` iterations always
suffice, so the bounded recursion below computes the same result as the
C while loop whenever 0 < frameSize. -/
def drainLoop (frameSize spb : Nat) :
    Nat → List Nat → Nat → List (List Nat × Nat) × List Nat × Nat
  | 0, buf, pts => ([], buf, pts)
  | fuel + 1, buf, pts =>
    if frameSize ≤ buf.length then
      let rest := drainLoop frameSize spb fuel (buf.drop frameSize) (pts + spb)
      ((buf.take frameSize, pts) :: rest.1, rest.2)
    else ([], buf, pts)

/-- Audio branch of shm_write_packet (lines 244-258): reject a unit that
would overflow the accumulation buffer (capacity 2 * frameSize, line 179)
with a logged error and return 0 (lines 245-248; the `true` flag records
that the av_log overflow diagnostic fired and the unit was dropped);
otherwise append the unit (lines 250-251) and drain full frames.
Result: (return code, emitted frames with their pts, new state, dropped). -/
def shm_write_packet_audio (frameSize spb : Nat) (st : PackerState)
    (unit : List Nat) : Int × List (List Nat × Nat) × PackerState × Bool :=
  if st.buf.length + unit.length > 2 * frameSize then
    (0, [], st, true)
  else
    ((0 : Int),
     (drainLoop frameSize spb (st.buf ++ unit).length (st.buf ++ unit) st.pts).1,
     ⟨(drainLoop frameSize spb (st.buf ++ unit).length (st.buf ++ unit) st.pts).2.1,
      (drainLoop frameSize spb (st.buf ++ unit).length (st.buf ++ unit) st.pts).2.2⟩,
     false)

/-- Driver feeding a sequence of audio units to shm_write_packet, one call
per unit, accumulating the emitted frames; the Bool records whether any
unit was dropped by the overflow check. -/
def runPacker (frameSize spb : Nat) (st : PackerState) :
    List (List Nat) → List (List Nat × Nat) × PackerState × Bool
  | [] => ([], st, false)
  | u :: us =>
    let r := shm_write_packet_audio frameSize spb st u
    let rest := runPacker frameSize spb r.2.2.1 us
    (r.2.1 ++ rest.1, rest.2.1, r.2.2.2 || rest.2.2)

/-- Records written to the metadata channel at trailer time for the audio
channel. -/
inductive MetaRecord
  | audioFrame (data : List Nat) (pts : Nat)
  | eos
  deriving DecidableEq, Repr

/-- Audio part of shm_write_trailer (lines 267-279): if the accumulation
buffer is non-empty, zero-pad it to a full frame (memset, lines 269-271)
and flush it via write_full_audio_frame, then write the EOS descriptor
(cmdtype = 2, lines 277-279). -/
def shm_write_trailer_audio (frameSize : Nat) (st : PackerState) :
    List MetaRecord :=
  (if 0 < st.buf.length then
    [MetaRecord.audioFrame
      (st.buf ++ List.replicate (frameSize - st.buf.length) 0) st.pts]
  else []) ++ [MetaRecord.eos]

/-- Expected pts sequence: n values start, start+spb, start+2*spb, ... -/
def ptsList (start spb : Nat) : Nat → List Nat
  | 0 => []
  | n + 1 => start :: ptsList (start + spb) spb n

theorem ptsList_length (start spb n : Nat) :
    (ptsList start spb n).length = n := by
  induction n generalizing start with
  | zero => rfl
  | succ n ih => simp [ptsList, ih]

theorem ptsList_append (start spb k m : Nat) :
    ptsList start spb (k + m) =
      ptsList start spb k ++ ptsList (start + spb * k) spb m := by
  induction k generalizing start with
  | zero => simp [ptsList]
  | succ k ih =>
    have : start + spb * (k + 1) = (start + spb) + spb * k := by ring
    simp only [Nat.succ_add, ptsList, ih (start + spb), this, List.cons_append]

theorem ptsList_eq_range_map (spb : Nat) :
    ∀ n start, ptsList start spb n =
      (List.range n).map (fun j => start + spb * j) := by
  intro n
  induction n with
  | zero => intro start; rfl
  | succ n ih =>
    intro start
    rw [List.range_succ_eq_map, List.map_cons, List.map_map]
    simp only [ptsList, ih, Nat.mul_zero, Nat.add_zero]
    congr 1
    apply List.map_congr_left
    intro j _
    simp only [Function.comp_apply, Nat.succ_eq_add_one]
    ring

/-- Combined behaviour of the drain loop, proved for any fuel that is at
least the buffer length: every emitted frame is exactly frameSize bytes,
the frames concatenated with the leftover buffer reconstruct the input
(frames come off the head), the leftover is a strict partial frame, the
pts stamps advance by spb from the starting counter, and the final
counter reflects the number of emissions. -/
theorem drainLoop_spec (frameSize spb : Nat) (hfs : 0 < frameSize) :
    ∀ fuel buf pts, buf.length ≤ fuel →
      (∀ f ∈ (drainLoop frameSize spb fuel buf pts).1, f.1.length = frameSize) ∧
      ((drainLoop frameSize spb fuel buf pts).1.map Prod.fst).flatten ++
          (drainLoop frameSize spb fuel buf pts).2.1 = buf ∧
      (drainLoop frameSize spb fuel buf pts).2.1.length < frameSize ∧
      (drainLoop frameSize spb fuel buf pts).1.map Prod.snd =
        ptsList pts spb (drainLoop frameSize spb fuel buf pts).1.length ∧
      (drainLoop frameSize spb fuel buf pts).2.2 =
        pts + spb * (drainLoop frameSize spb fuel buf pts).1.length := by
  intro fuel
  induction fuel with
  | zero =>
    intro buf pts hle
    have hb : buf = [] := List.eq_nil_of_length_eq_zero (Nat.le_zero.mp hle)
    subst hb
    simp [drainLoop, ptsList, hfs]
  | succ fuel ih =>
    intro buf pts hle
    by_cases hcond : frameSize ≤ buf.length
    · have hdrop : (buf.drop frameSize).length ≤ fuel := by
        simp only [List.length_drop]; omega
      obtain ⟨ih1, ih2, ih3, ih4, ih5⟩ := ih (buf.drop frameSize) (pts + spb) hdrop
      simp only [drainLoop, if_pos hcond]
      refine ⟨?_, ?_, ih3, ?_, ?_⟩
      · intro f hf
        rcases List.mem_cons.mp hf with h | h
        · subst h; simp [List.length_take]; omega
        · exact ih1 f h
      · rw [List.map_cons, List.flatten_cons, List.append_assoc, ih2,
          List.take_append_drop]
      · simp only [List.map_cons, List.length_cons, ih4, ptsList]
      · simp only [List.length_cons, ih5]; ring
    · simp only [drainLoop, if_neg hcond]
      refine ⟨by simp, by simp, by omega, by simp [ptsList], by simp⟩

/-- Behaviour of one accepted (non-overflowing) shm_write_packet audio
call. -/
theorem shm_write_packet_audio_spec (frameSize spb : Nat) (hfs : 0 < frameSize)
    (st : PackerState) (unit : List Nat)
    (hacc : ¬ st.buf.length + unit.length > 2 * frameSize) :
    (shm_write_packet_audio frameSize spb st unit).1 = 0 ∧
    (shm_write_packet_audio frameSize spb st unit).2.2.2 = false ∧
    (∀ f ∈ (shm_write_packet_audio frameSize spb st unit).2.1,
      f.1.length = frameSize) ∧
    ((shm_write_packet_audio frameSize spb st unit).2.1.map Prod.fst).flatten ++
        (shm_write_packet_audio frameSize spb st unit).2.2.1.buf =
      st.buf ++ unit ∧
    (shm_write_packet_audio frameSize spb st unit).2.2.1.buf.length < frameSize ∧
    (shm_write_packet_audio frameSize spb st unit).2.1.map Prod.snd =
      ptsList st.pts spb (shm_write_packet_audio frameSize spb st unit).2.1.length ∧
    (shm_write_packet_audio frameSize spb st unit).2.2.1.pts =
      st.pts + spb * (shm_write_packet_audio frameSize spb st unit).2.1.length := by
  obtain ⟨h1, h2, h3, h4, h5⟩ :=
    drainLoop_spec frameSize spb hfs (st.buf ++ unit).length (st.buf ++ unit)
      st.pts le_rfl
  simp only [shm_write_packet_audio, if_neg hacc]
  exact ⟨trivial, trivial, h1, h2, h3, h4, h5⟩

/-- Behaviour of a run of shm_write_packet calls in which no unit was
dropped. -/
theorem runPacker_spec (frameSize spb : Nat) (hfs : 0 < frameSize) :
    ∀ (units : List (List Nat)) (st : PackerState),
      (runPacker frameSize spb st units).2.2 = false →
      (∀ f ∈ (runPacker frameSize spb st units).1, f.1.length = frameSize) ∧
      ((runPacker frameSize spb st units).1.map Prod.fst).flatten ++
          (runPacker frameSize spb st units).2.1.buf = st.buf ++ units.flatten ∧
      (st.buf.length < frameSize →
        (runPacker frameSize spb st units).2.1.buf.length < frameSize) ∧
      (runPacker frameSize spb st units).1.map Prod.snd =
        ptsList st.pts spb (runPacker frameSize spb st units).1.length ∧
      (runPacker frameSize spb st units).2.1.pts =
        st.pts + spb * (runPacker frameSize spb st units).1.length := by
  intro units
  induction units with
  | nil =>
    intro st _
    simp [runPacker, ptsList]
  | cons u us ih =>
    intro st hnd
    simp only [runPacker, Bool.or_eq_false_iff] at hnd ⊢
    have hacc : ¬ st.buf.length + u.length > 2 * frameSize := by
      intro hov
      have hdrop : (shm_write_packet_audio frameSize spb st u).2.2.2 = true := by
        simp [shm_write_packet_audio, if_pos hov]
      rw [hdrop] at hnd
      exact absurd hnd.1 (by simp)
    obtain ⟨_, _, p3, p4, p5, p6, p7⟩ :=
      shm_write_packet_audio_spec frameSize spb hfs st u hacc
    obtain ⟨q1, q2, q3, q4, q5⟩ :=
      ih (shm_write_packet_audio frameSize spb st u).2.2.1 hnd.2
    refine ⟨?_, ?_, ?_, ?_, ?_⟩
    · intro f hf
      rcases List.mem_append.mp hf with h | h
      · exact p3 f h
      · exact q1 f h
    · rw [List.map_append, List.flatten_append, List.append_assoc, q2,
        ← List.append_assoc, p4, List.flatten_cons, List.append_assoc]
    · intro _
      exact q3 p5
    · rw [List.map_append, p6, q4, p7, List.length_append, ptsList_append]
    · rw [q5, p7, List.length_append]; ring

theorem get_snd_of_map_range {α : Type} (l : List (α × Nat)) (c : Nat)
    (h : l.map Prod.snd = (List.range l.length).map (fun j => c * j))
    (i : Nat) (hi : i < l.length) : (l.get ⟨i, hi⟩).2 = c * i := by
  have h4 : (l.map Prod.snd)[i]? = some (c * i) := by
    rw [h, List.getElem?_map, List.getElem?_range hi]
    rfl
  have h5 : (l.map Prod.snd)[i]? = some ((l.get ⟨i, hi⟩).2) := by
    rw [List.getElem?_map, List.getElem?_eq_getElem hi]
    rfl
  rw [h4] at h5
  exact (Option.some_inj.mp h5).symm

end Shmframe

/-- C1: the producer creates the empty/free semaphore initialized to
NUM_BUFFERS = 3 and the ready/full semaphore initialized to 0, and every
producer and consumer semaphore operation — including the consumer's
bounds-rejection and packet-allocation-failure error paths, each of which
posts the empty semaphore before returning — preserves
free + ready + inFlight = NUM_BUFFERS on all reachable states. -/
theorem C1_sem_invariant :
    Shmframe.semInit.free = Shmframe.NUM_BUFFERS ∧
    Shmframe.semInit.ready = 0 ∧
    ∀ s : Shmframe.SemState, Shmframe.SemReachable s →
      s.free + s.ready + s.inFlight = Shmframe.NUM_BUFFERS := by
  refine ⟨rfl, rfl, ?_⟩
  intro s hs
  induction hs with
  | refl => rfl
  | tail _ hstep ih =>
    cases hstep <;> simp_all <;> omega

/-- C1 witness: the state after one producer slot acquisition
(free = 2, ready = 0, inFlight = 1) is reachable and satisfies the
invariant. -/
theorem C1_sem_invariant_witness :
    (⟨2, 0, 1⟩ : Shmframe.SemState).free + (⟨2, 0, 1⟩ : Shmframe.SemState).ready +
      (⟨2, 0, 1⟩ : Shmframe.SemState).inFlight = Shmframe.NUM_BUFFERS :=
  C1_sem_invariant.2.2 ⟨2, 0, 1⟩
    (Relation.ReflTransGen.tail Relation.ReflTransGen.refl
      (Shmframe.SemStep.prodAcquire 2 0 0))

namespace Shmframe

/-- C2: for every sequence of audio units accepted by the frame packer
(no unit hits the overflow drop), each emitted frame is exactly the
configured frame size samples_per_buffer * channels * bytes-per-sample,
the emitted frames concatenated with the leftover accumulation buffer
reconstruct the input byte stream (each frame is taken from the head of
the buffer and the remainder shifted forward), the i-th emitted frame is
stamped with pts = i * samples_per_buffer from the producer-maintained
counter starting at 0, and at stream end a non-empty residual is
zero-padded to the full frame size and flushed as one final frame before
the end-of-stream record. -/
theorem C2_audio_frame_packer (spb channels bps : Nat)
    (hfs : 0 < frame_buffer_size_audio spb channels bps)
    (units : List (List Nat))
    (hnd : (runPacker (frame_buffer_size_audio spb channels bps) spb
        ⟨[], 0⟩ units).2.2 = false) :
    (∀ f ∈ (runPacker (frame_buffer_size_audio spb channels bps) spb
        ⟨[], 0⟩ units).1, f.1.length = frame_buffer_size_audio spb channels bps) ∧
    ((runPacker (frame_buffer_size_audio spb channels bps) spb
        ⟨[], 0⟩ units).1.map Prod.fst).flatten ++
      (runPacker (frame_buffer_size_audio spb channels bps) spb
        ⟨[], 0⟩ units).2.1.buf = units.flatten ∧
    (∀ i (hi : i < (runPacker (frame_buffer_size_audio spb channels bps) spb
        ⟨[], 0⟩ units).1.length),
      ((runPacker (frame_buffer_size_audio spb channels bps) spb
        ⟨[], 0⟩ units).1.get ⟨i, hi⟩).2 = spb * i) ∧
    (0 < (runPacker (frame_buffer_size_audio spb channels bps) spb
        ⟨[], 0⟩ units).2.1.buf.length →
      shm_write_trailer_audio (frame_buffer_size_audio spb channels bps)
          (runPacker (frame_buffer_size_audio spb channels bps) spb
            ⟨[], 0⟩ units).2.1 =
        [MetaRecord.audioFrame
          ((runPacker (frame_buffer_size_audio spb channels bps) spb
              ⟨[], 0⟩ units).2.1.buf ++
            List.replicate (frame_buffer_size_audio spb channels bps -
              (runPacker (frame_buffer_size_audio spb channels bps) spb
                ⟨[], 0⟩ units).2.1.buf.length) 0)
          (runPacker (frame_buffer_size_audio spb channels bps) spb
            ⟨[], 0⟩ units).2.1.pts,
         MetaRecord.eos] ∧
      ((runPacker (frame_buffer_size_audio spb channels bps) spb
          ⟨[], 0⟩ units).2.1.buf ++
        List.replicate (frame_buffer_size_audio spb channels bps -
          (runPacker (frame_buffer_size_audio spb channels bps) spb
            ⟨[], 0⟩ units).2.1.buf.length) 0).length =
        frame_buffer_size_audio spb channels bps) := by
  obtain ⟨q1, q2, q3, q4, q5⟩ :=
    runPacker_spec (frame_buffer_size_audio spb channels bps) spb hfs units
      ⟨[], 0⟩ hnd
  have hlt : (runPacker (frame_buffer_size_audio spb channels bps) spb
      ⟨[], 0⟩ units).2.1.buf.length < frame_buffer_size_audio spb channels bps :=
    q3 (by simpa using hfs)
  refine ⟨q1, by simpa using q2, ?_, ?_⟩
  · intro i hi
    apply get_snd_of_map_range
    rw [q4, ptsList_eq_range_map]
    simp
  · intro hpos
    constructor
    · simp [shm_write_trailer_audio, hpos]
    · simp only [List.length_append, List.length_replicate]
      omega

/-- C2 witness: feeding units of sizes 3 and 3 bytes into a packer
configured for 4-byte frames (2 samples, 1 channel, 2 bytes per sample)
emits frames that together with the leftover buffer reconstruct the
input. -/
theorem C2_audio_frame_packer_witness :
    ((runPacker (frame_buffer_size_audio 2 1 2) 2 ⟨[], 0⟩
        [[1, 2, 3], [4, 5, 6]]).1.map Prod.fst).flatten ++
      (runPacker (frame_buffer_size_audio 2 1 2) 2 ⟨[], 0⟩
        [[1, 2, 3], [4, 5, 6]]).2.1.buf = [[1, 2, 3], [4, 5, 6]].flatten :=
  (C2_audio_frame_packer 2 1 2 (by decide) [[1, 2, 3], [4, 5, 6]]
    (by rfl)).2.1

end Shmframe

namespace Shmframe

/-! ## Producer publish operation order (claims C3, C9 video path, C10)

Event-trace model of the producer functions: each function is rendered as
the sequence of externally visible actions it performs, in program order.
A reviewer can check each list against the statement order in the C
source. -/

inductive ProdEvent
  | semWaitEmpty
  | payloadCopy (len : Nat)
  | descriptorWrite (cmdtype size : Nat) (pts : Int) (offset : Nat)
  | metaFlush
  | indexAdvance
  | semPostFull
  | bufferShift
  | logOverflowDrop
  deriving DecidableEq, Repr

/-- Video branch of shm_write_packet (lines 228-243), in program order:
sem_wait(empty_sem_video) (229), memcpy of pkt->size bytes into the
current slot (232) — note there is no comparison of pkt->size against
frame_buffer_size_video, so an oversized packet is copied in full —
then the frame descriptor (cmdtype 0, size, pts, offset) is written and
flushed to the metadata pipe (239-240), write_index advances (242), and
sem_post(full_sem_video) (243).  The function returns 0 (line 261). -/
def shm_write_packet_video (pktSize : Nat) (pktPts : Int) (slotOffset : Nat) :
    Int × List ProdEvent :=
  (0,
   [ProdEvent.semWaitEmpty,
    ProdEvent.payloadCopy pktSize,
    ProdEvent.descriptorWrite 0 pktSize pktPts slotOffset,
    ProdEvent.metaFlush,
    ProdEvent.indexAdvance,
    ProdEvent.semPostFull])

/-- write_full_audio_frame (lines 63-99), in program order:
sem_wait(empty_sem_audio) (66), memcpy of one full frame into the slot
(75), descriptor write and flush (84-85), write_index advance (87),
sem_post(full_sem_audio) (89), then the remainder shift (94-97, only when
occupancy stays positive). -/
def write_full_audio_frame_events (frameSize pts offset : Nat)
    (shiftNeeded : Bool) : List ProdEvent :=
  [ProdEvent.semWaitEmpty,
   ProdEvent.payloadCopy frameSize,
   ProdEvent.descriptorWrite 1 frameSize (Int.ofNat pts) offset,
   ProdEvent.metaFlush,
   ProdEvent.indexAdvance,
   ProdEvent.semPostFull] ++
  (if shiftNeeded then [ProdEvent.bufferShift] else [])

def isPayloadCopy : ProdEvent → Bool
  | ProdEvent.payloadCopy _ => true
  | _ => false

def isDescriptorWrite : ProdEvent → Bool
  | ProdEvent.descriptorWrite .. => true
  | _ => false

def isMetaFlush : ProdEvent → Bool
  | ProdEvent.metaFlush => true
  | _ => false

def isSemPostFull : ProdEvent → Bool
  | ProdEvent.semPostFull => true
  | _ => false

/-! ## Producer header tail (claim C10) -/

inductive HeaderEvent
  | semOpenEmpty (ok : Bool)
  | semOpenFull (ok : Bool)
  | writeSessionHeader
  | flushHeader
  deriving DecidableEq, Repr

/-- Tail of shm_write_header after a channel's segment setup succeeded:
the two sem_open calls (lines 164-165 for video, 212-213 for audio) whose
return values are stored but never compared against SEM_FAILED, followed
unconditionally by the session-header write and flush (lines 216-217) and
`return 0` (line 219).  The `ok` flags record whether each sem_open
succeeded; no branch in the source inspects them. -/
def shm_write_header_tail (emptyOk fullOk : Bool) : Int × List HeaderEvent :=
  (0,
   [HeaderEvent.semOpenEmpty emptyOk,
    HeaderEvent.semOpenFull fullOk,
    HeaderEvent.writeSessionHeader,
    HeaderEvent.flushHeader])

/-! ## Trailer teardown trace (claim C7) -/

inductive TrailerEvent
  | setEofVideo
  | setEofAudio
  | audioPadFlush
  | writeEosDescriptor
  | flushMeta
  | munmapVideo
  | closeFdVideo
  | shmUnlinkVideo
  | freeInternalAudio
  | munmapAudio
  | closeFdAudio
  | shmUnlinkAudio
  | semCloseEmptyVideo
  | semUnlinkEmptyVideo
  | semCloseFullVideo
  | semUnlinkFullVideo
  | semCloseEmptyAudio
  | semUnlinkEmptyAudio
  | semCloseFullAudio
  | semUnlinkFullAudio
  deriving DecidableEq, Repr

/-- shm_write_trailer (lines 264-310), in program order.  `hasVideo` /
`hasAudio` stand for the channel having been set up (non-null control
block, fd > 0, semaphore handle valid), `audioOccupancy` for
internal_buffer_occupancy_audio at entry.  The source sets the eof flags
(266, 274), pads and flushes a non-empty audio residual (268-273), writes
and flushes the EOS descriptor (277-279), then munmaps and closes each
segment (282-283, 287-289) and sem_closes the four semaphores (293-308).
The shm_unlink and sem_unlink calls appear only as comments in the source
("shm_unlink for video should be here", lines 284, 290, 295, 299, 303,
307), so no unlink event is ever emitted. -/
def shm_write_trailer_events (hasVideo hasAudio : Bool)
    (audioOccupancy : Nat) : List TrailerEvent :=
  (if hasVideo then [TrailerEvent.setEofVideo] else []) ++
  (if hasAudio then
    (if 0 < audioOccupancy then [TrailerEvent.audioPadFlush] else []) ++
      [TrailerEvent.setEofAudio]
  else []) ++
  [TrailerEvent.writeEosDescriptor, TrailerEvent.flushMeta] ++
  (if hasVideo then [TrailerEvent.munmapVideo, TrailerEvent.closeFdVideo]
  else []) ++
  (if hasAudio then
    [TrailerEvent.freeInternalAudio, TrailerEvent.munmapAudio,
     TrailerEvent.closeFdAudio]
  else []) ++
  (if hasVideo then
    [TrailerEvent.semCloseEmptyVideo, TrailerEvent.semCloseFullVideo]
  else []) ++
  (if hasAudio then
    [TrailerEvent.semCloseEmptyAudio, TrailerEvent.semCloseFullAudio]
  else [])

/-- Unlink actions (shared-memory unlink and semaphore unlink). -/
def isUnlinkEvent : TrailerEvent → Bool
  | TrailerEvent.shmUnlinkVideo => true
  | TrailerEvent.shmUnlinkAudio => true
  | TrailerEvent.semUnlinkEmptyVideo => true
  | TrailerEvent.semUnlinkFullVideo => true
  | TrailerEvent.semUnlinkEmptyAudio => true
  | TrailerEvent.semUnlinkFullAudio => true
  | _ => false

end Shmframe

namespace Shmframe

/-- C3: in both the video path of shm_write_packet and in
write_full_audio_frame, the publish trace performs exactly one payload
copy, one descriptor write, one metadata flush and one ready post, in
this strict order: payload copy, then descriptor write, then flush, and
only then the post of the full semaphore; the ready post never precedes
the payload write. -/
theorem C3_copy_then_descriptor_then_post (pktSize : Nat) (pktPts : Int)
    (slotOffset frameSize pts offset : Nat) (shiftNeeded : Bool) :
    ((shm_write_packet_video pktSize pktPts slotOffset).2.findIdx isPayloadCopy <
        (shm_write_packet_video pktSize pktPts slotOffset).2.findIdx isDescriptorWrite ∧
      (shm_write_packet_video pktSize pktPts slotOffset).2.findIdx isDescriptorWrite <
        (shm_write_packet_video pktSize pktPts slotOffset).2.findIdx isMetaFlush ∧
      (shm_write_packet_video pktSize pktPts slotOffset).2.findIdx isMetaFlush <
        (shm_write_packet_video pktSize pktPts slotOffset).2.findIdx isSemPostFull ∧
      (shm_write_packet_video pktSize pktPts slotOffset).2.countP isPayloadCopy = 1 ∧
      (shm_write_packet_video pktSize pktPts slotOffset).2.countP isDescriptorWrite = 1 ∧
      (shm_write_packet_video pktSize pktPts slotOffset).2.countP isSemPostFull = 1) ∧
    ((write_full_audio_frame_events frameSize pts offset shiftNeeded).findIdx isPayloadCopy <
        (write_full_audio_frame_events frameSize pts offset shiftNeeded).findIdx isDescriptorWrite ∧
      (write_full_audio_frame_events frameSize pts offset shiftNeeded).findIdx isDescriptorWrite <
        (write_full_audio_frame_events frameSize pts offset shiftNeeded).findIdx isMetaFlush ∧
      (write_full_audio_frame_events frameSize pts offset shiftNeeded).findIdx isMetaFlush <
        (write_full_audio_frame_events frameSize pts offset shiftNeeded).findIdx isSemPostFull ∧
      (write_full_audio_frame_events frameSize pts offset shiftNeeded).countP isPayloadCopy = 1 ∧
      (write_full_audio_frame_events frameSize pts offset shiftNeeded).countP isDescriptorWrite = 1 ∧
      (write_full_audio_frame_events frameSize pts offset shiftNeeded).countP isSemPostFull = 1) := by
  cases shiftNeeded <;>
    exact ⟨⟨of_decide_eq_true rfl, of_decide_eq_true rfl, of_decide_eq_true rfl,
        rfl, rfl, rfl⟩,
      ⟨of_decide_eq_true rfl, of_decide_eq_true rfl, of_decide_eq_true rfl,
        rfl, rfl, rfl⟩⟩

/-- C7 evaluation: with both channels set up and a non-empty audio
residual, shm_write_trailer writes the EOS descriptor before any teardown
action, munmaps, closes and sem_closes — but performs no shm_unlink and
no sem_unlink at all (those calls exist only as comments in the source),
contradicting the claim that segments and semaphores are unlinked. -/
theorem C7_trailer_never_unlinks :
    TrailerEvent.writeEosDescriptor ∈ shm_write_trailer_events true true 5 ∧
    (shm_write_trailer_events true true 5).findIdx
        (fun e => e = TrailerEvent.writeEosDescriptor) <
      (shm_write_trailer_events true true 5).findIdx
        (fun e => e = TrailerEvent.munmapVideo) ∧
    TrailerEvent.munmapVideo ∈ shm_write_trailer_events true true 5 ∧
    TrailerEvent.munmapAudio ∈ shm_write_trailer_events true true 5 ∧
    TrailerEvent.closeFdVideo ∈ shm_write_trailer_events true true 5 ∧
    TrailerEvent.closeFdAudio ∈ shm_write_trailer_events true true 5 ∧
    TrailerEvent.semCloseEmptyVideo ∈ shm_write_trailer_events true true 5 ∧
    TrailerEvent.semCloseFullVideo ∈ shm_write_trailer_events true true 5 ∧
    TrailerEvent.semCloseEmptyAudio ∈ shm_write_trailer_events true true 5 ∧
    TrailerEvent.semCloseFullAudio ∈ shm_write_trailer_events true true 5 ∧
    (shm_write_trailer_events true true 5).all
      (fun e => !(isUnlinkEvent e)) = true := by
  decide

/-- C9 counterexample: a video frame one byte larger than a 4-byte slot
is not dropped by shm_write_packet: the call returns 0, copies the full
5-byte payload into the slot (memcpy of pkt->size bytes with no size
check), and emits no overflow diagnostic. -/
theorem C9_video_oversized_copied_in_full :
    4 < 5 ∧
    (shm_write_packet_video 5 0 0).1 = 0 ∧
    ProdEvent.payloadCopy 5 ∈ (shm_write_packet_video 5 0 0).2 ∧
    ProdEvent.logOverflowDrop ∉ (shm_write_packet_video 5 0 0).2 := by
  decide

/-- C9 amended: an audio unit that would overflow the accumulation buffer
(occupancy + unit size > 2 * frame size) is dropped with the logged
overflow condition and the call returns 0 with the packer state unchanged
and no frame emitted; a video packet, by contrast, is never checked
against the slot size — the payload copy of pkt->size bytes happens
unconditionally and no overflow condition is ever logged on the video
path. -/
theorem C9_overflow_policy (frameSize spb : Nat) (st : PackerState)
    (unit : List Nat)
    (hov : st.buf.length + unit.length > 2 * frameSize) :
    shm_write_packet_audio frameSize spb st unit = (0, [], st, true) ∧
    ∀ (pktSize : Nat) (pktPts : Int) (slotOffset : Nat),
      (shm_write_packet_video pktSize pktPts slotOffset).1 = 0 ∧
      ProdEvent.payloadCopy pktSize ∈
        (shm_write_packet_video pktSize pktPts slotOffset).2 ∧
      ProdEvent.logOverflowDrop ∉
        (shm_write_packet_video pktSize pktPts slotOffset).2 := by
  refine ⟨by simp [shm_write_packet_audio, if_pos hov], ?_⟩
  intro pktSize pktPts slotOffset
  refine ⟨rfl, ?_, ?_⟩
  · simp [shm_write_packet_video]
  · simp [shm_write_packet_video]

/-- C9 witness: a 2-byte unit arriving while 3 bytes are buffered in a
2-byte-frame packer (capacity 4) is dropped: the call returns 0 and the
state is unchanged. -/
theorem C9_overflow_policy_witness :
    shm_write_packet_audio 2 1 ⟨[1, 2, 3], 0⟩ [4, 5] =
      (0, [], ⟨[1, 2, 3], 0⟩, true) :=
  (C9_overflow_policy 2 1 ⟨[1, 2, 3], 0⟩ [4, 5] (by decide)).1

/-- C10: shm_write_header never inspects the results of its sem_open
calls: for every combination of success/failure of creating the empty and
full semaphores the function still writes the session header to the
metadata channel, flushes it, and returns 0, so a session can be
established with invalid semaphore handles. -/
theorem C10_header_ignores_sem_open_failure :
    ∀ emptyOk fullOk : Bool,
      (shm_write_header_tail emptyOk fullOk).1 = 0 ∧
      HeaderEvent.writeSessionHeader ∈ (shm_write_header_tail emptyOk fullOk).2 ∧
      HeaderEvent.flushHeader ∈ (shm_write_header_tail emptyOk fullOk).2 := by
  decide

end Shmframe

namespace Shmframe

/-! ## Consumer read path (claims C4, C5, C6)

Model of shm_read_packet (shmframe.c lines 167-241).  The FrameHeader
record the demuxer reads from the pipe carries cmdtype (u32), size (u32),
pts (i64) and offset (u64): 24 bytes.  `readLen` is the value returned by
avio_read for the descriptor read; any value other than the full record
size takes the early-EOF return.  The demuxer is single-threaded, so a
sem_wait on a full semaphore whose count is 0 never returns within the
call: this is modelled as the `rBlocked` outcome.  The control block's
eof flags are part of the state but — exactly as in the source — are
never consulted by shm_read_packet. -/

/-- Size in bytes of the FrameHeader record the muxer writes and the
demuxer reads (uint32 cmdtype, uint32 size, int64 pts, uint64 offset). -/
def frameHeaderSizeBytes : Nat := 24

/-- Modulus of C uint64_t arithmetic: the bounds check in shm_read_packet
adds the descriptor's uint64_t offset and uint32_t size, so the sum is
computed modulo 2^64. -/
def UINT64_MOD : Nat := 2 ^ 64

structure FrameHeader where
  cmdtype : Nat
  size : Nat
  pts : Int
  offset : Nat
  deriving DecidableEq, Repr

inductive Chan
  | video
  | audio
  deriving DecidableEq, Repr

inductive ConsEvent
  | semWaitFull (ch : Chan)
  | semPostEmpty (ch : Chan)
  | memRead (ch : Chan) (offset len : Nat)
  deriving DecidableEq, Repr

/-- Outcome of one shm_read_packet call.  `rEof` is AVERROR_EOF, `rErr`
is a negative AVERROR return (modelled by the errno value), `rBlocked`
means the call is stuck inside sem_wait, `rOk` is return 0 with a filled
packet, and `rOkNoPayload` is the fall-through for an unknown cmdtype:
return 0 with pts/dts set but no payload read and no packet allocated. -/
inductive ReadResult
  | rEof
  | rErr (code : Nat)
  | rBlocked
  | rOk (data : List Nat) (streamIndex : Nat) (pts dts : Int)
  | rOkNoPayload (pts dts : Int)
  deriving DecidableEq, Repr

def EINVAL : Nat := 22
def ENOMEM : Nat := 12

structure DemuxState where
  shmVideo : List Nat
  shmAudio : List Nat
  fullVideo : Nat
  fullAudio : Nat
  eofVideo : Bool
  eofAudio : Bool
  nbStreams : Nat
  deriving DecidableEq, Repr

/-- shm_read_packet (lines 167-241).  In order: the descriptor read with
`ret != sizeof(frame_header)` returning AVERROR_EOF (178-181); cmdtype 2
returning AVERROR_EOF (183-185); the video branch (187-204): plain
sem_wait(full_sem_video) with no timeout and no eof-flag poll (188-190),
bounds rejection posting the empty semaphore and returning
AVERROR(EINVAL) (191-194), av_new_packet failure posting the empty
semaphore and returning the error (195-199), then the payload memcpy
from shm_buffer_video + offset and the empty post (200-204); the audio
branch (205-224) is symmetric with stream index nb_streams - 1; any
other cmdtype falls through to lines 226-240, which set pkt->pts/dts and
return 0 without touching any segment or semaphore.

The bounds check at line 191 is
`frame_header.offset + frame_header.size > c->shm_buffer_size_video`,
a C addition of a uint64_t and a uint32_t: the sum wraps modulo 2^64, so
it is modelled as `(h.offset + h.size) % UINT64_MOD`.  A descriptor whose
sum wraps (offset + size >= 2^64) can therefore pass the check; the
memcpy then starts at shm_buffer + offset, outside the mapped segment
(undefined behaviour in the C program).  The `memRead` event records the
attempted byte range so that theorems can observe such accesses; the
`data` component uses drop/take on the segment bytes and is empty on an
out-of-range start. -/
def shm_read_packet (readLen : Nat) (h : FrameHeader) (allocOk : Bool)
    (st : DemuxState) : ReadResult × List ConsEvent :=
  if readLen ≠ frameHeaderSizeBytes then (ReadResult.rEof, [])
  else if h.cmdtype = 2 then (ReadResult.rEof, [])
  else if h.cmdtype = 0 then
    if st.fullVideo = 0 then
      (ReadResult.rBlocked, [ConsEvent.semWaitFull Chan.video])
    else if (h.offset + h.size) % UINT64_MOD > st.shmVideo.length then
      (ReadResult.rErr EINVAL,
       [ConsEvent.semWaitFull Chan.video, ConsEvent.semPostEmpty Chan.video])
    else if allocOk = false then
      (ReadResult.rErr ENOMEM,
       [ConsEvent.semWaitFull Chan.video, ConsEvent.semPostEmpty Chan.video])
    else
      (ReadResult.rOk ((st.shmVideo.drop h.offset).take h.size) 0 h.pts h.pts,
       [ConsEvent.semWaitFull Chan.video,
        ConsEvent.memRead Chan.video h.offset h.size,
        ConsEvent.semPostEmpty Chan.video])
  else if h.cmdtype = 1 then
    if st.fullAudio = 0 then
      (ReadResult.rBlocked, [ConsEvent.semWaitFull Chan.audio])
    else if (h.offset + h.size) % UINT64_MOD > st.shmAudio.length then
      (ReadResult.rErr EINVAL,
       [ConsEvent.semWaitFull Chan.audio, ConsEvent.semPostEmpty Chan.audio])
    else if allocOk = false then
      (ReadResult.rErr ENOMEM,
       [ConsEvent.semWaitFull Chan.audio, ConsEvent.semPostEmpty Chan.audio])
    else
      (ReadResult.rOk ((st.shmAudio.drop h.offset).take h.size)
        (st.nbStreams - 1) h.pts h.pts,
       [ConsEvent.semWaitFull Chan.audio,
        ConsEvent.memRead Chan.audio h.offset h.size,
        ConsEvent.semPostEmpty Chan.audio])
  else (ReadResult.rOkNoPayload h.pts h.pts, [])

end Shmframe

namespace Shmframe

/-! ## Setup error unwinding (claim C8)

Resource-tracking model of the video-channel setup in the consumer's
shm_read_header (shmframe.c lines 57-109) and the producer's
shm_write_header (shm_muxer.c lines 139-155).  Each environment flag
says whether the corresponding system call succeeds; the result pairs
the error (None on success) with the resources still held when the
function returns.  The audio-channel setup (shmframe.c lines 112-162,
shm_muxer.c lines 186-203) is line-for-line symmetric. -/

structure DemuxSetupEnv where
  shmOpenOk : Bool
  semEmptyOk : Bool
  semFullOk : Bool
  fstatOk : Bool
  mmapOk : Bool
  newStreamOk : Bool
  deriving DecidableEq, Repr

structure DemuxHeld where
  fdOpen : Bool
  emptySemOpen : Bool
  fullSemOpen : Bool
  mapped : Bool
  deriving DecidableEq, Repr

inductive DemuxSetupErr
  | shmOpenE
  | semEmptyE
  | semFullE
  | fstatE
  | mmapE
  | newStreamE
  deriving DecidableEq, Repr

/-- Video setup of shm_read_header (lines 57-109), with the unwinding
each error path actually performs:
* shm_open failure (59-62): nothing was created, plain return;
* empty sem_open failure (65-69): close(fd), return;
* full sem_open failure (72-77): sem_close(empty), close(fd), return;
* fstat failure (80-84): close(fd) ONLY — the two semaphores opened at
  lines 64 and 71 are left open;
* mmap failure (88-92): close(fd) ONLY — both semaphores left open;
* avformat_new_stream failure (96-100): munmap + close(fd) — both
  semaphores left open. -/
def shm_read_header_video (env : DemuxSetupEnv) :
    Option DemuxSetupErr × DemuxHeld :=
  if env.shmOpenOk = false then
    (some DemuxSetupErr.shmOpenE, ⟨false, false, false, false⟩)
  else if env.semEmptyOk = false then
    (some DemuxSetupErr.semEmptyE, ⟨false, false, false, false⟩)
  else if env.semFullOk = false then
    (some DemuxSetupErr.semFullE, ⟨false, false, false, false⟩)
  else if env.fstatOk = false then
    (some DemuxSetupErr.fstatE, ⟨false, true, true, false⟩)
  else if env.mmapOk = false then
    (some DemuxSetupErr.mmapE, ⟨false, true, true, false⟩)
  else if env.newStreamOk = false then
    (some DemuxSetupErr.newStreamE, ⟨false, true, true, false⟩)
  else (none, ⟨true, true, true, true⟩)

structure MuxSetupEnv where
  shmOpenOk : Bool
  ftruncateOk : Bool
  mmapOk : Bool
  deriving DecidableEq, Repr

structure MuxHeld where
  fdOpen : Bool
  mapped : Bool
  segLinked : Bool
  deriving DecidableEq, Repr

inductive MuxSetupErr
  | shmOpenE
  | ftruncateE
  | mmapE
  deriving DecidableEq, Repr

/-- Video segment setup of shm_write_header (lines 139-155):
* shm_open failure (140-143): nothing created, plain return;
* ftruncate failure (144-148): close(fd) and shm_unlink, full unwind;
* mmap failure (151-155): close(fd) and shm_unlink, full unwind.
`segLinked` records whether the created shared-memory name is still
linked when the function returns. -/
def shm_write_header_video_setup (env : MuxSetupEnv) :
    Option MuxSetupErr × MuxHeld :=
  if env.shmOpenOk = false then
    (some MuxSetupErr.shmOpenE, ⟨false, false, false⟩)
  else if env.ftruncateOk = false then
    (some MuxSetupErr.ftruncateE, ⟨false, false, false⟩)
  else if env.mmapOk = false then
    (some MuxSetupErr.mmapE, ⟨false, false, false⟩)
  else (none, ⟨true, true, true⟩)

end Shmframe

namespace Shmframe

/-- C4 counterexample: a video frame descriptor has been read,
the peer died before posting the full semaphore (count 0) and the
control block's eof flag is already set — yet shm_read_packet blocks
inside the plain sem_wait instead of terminating: there is no fallback
poll of the eof flag. -/
theorem C4_wait_blocks_despite_eof :
    (shm_read_packet frameHeaderSizeBytes ⟨0, 100, 0, 0⟩ true
      ⟨List.replicate 200 0, [], 0, 0, true, true, 2⟩).1 =
      ReadResult.rBlocked := by
  decide

/-- C4 amended: the consumer's wait on the ready/full semaphore in
shm_read_packet is a plain unbounded sem_wait with no fallback poll: the
result never depends on the control block's eof flags, the call blocks
exactly when the addressed channel's full count is 0, and it proceeds
past the wait whenever the count is positive. -/
theorem C4_wait_unbounded (readLen : Nat) (h : FrameHeader) (allocOk : Bool)
    (st : DemuxState) (b1 b2 : Bool) :
    shm_read_packet readLen h allocOk
        { st with eofVideo := b1, eofAudio := b2 } =
      shm_read_packet readLen h allocOk st ∧
    (readLen = frameHeaderSizeBytes → h.cmdtype = 0 → st.fullVideo = 0 →
      (shm_read_packet readLen h allocOk st).1 = ReadResult.rBlocked) ∧
    (readLen = frameHeaderSizeBytes → h.cmdtype = 1 → st.fullAudio = 0 →
      (shm_read_packet readLen h allocOk st).1 = ReadResult.rBlocked) ∧
    (readLen = frameHeaderSizeBytes → h.cmdtype = 0 → 0 < st.fullVideo →
      (shm_read_packet readLen h allocOk st).1 ≠ ReadResult.rBlocked) := by
  refine ⟨rfl, ?_, ?_, ?_⟩
  · intro h1 h2 h3
    subst h1
    simp [shm_read_packet, h2, h3]
  · intro h1 h2 h3
    subst h1
    simp [shm_read_packet, h2, h3]
  · intro h1 h2 h3
    subst h1
    have hne : ¬ st.fullVideo = 0 := by omega
    simp only [shm_read_packet, h2, hne]
    split_ifs <;> simp

/-- C4 witness: with one ready video frame the call does not block. -/
theorem C4_wait_unbounded_witness :
    (shm_read_packet frameHeaderSizeBytes ⟨0, 1, 0, 0⟩ true
      ⟨[0, 0], [], 1, 0, true, false, 2⟩).1 ≠ ReadResult.rBlocked :=
  (C4_wait_unbounded frameHeaderSizeBytes ⟨0, 1, 0, 0⟩ true
    ⟨[0, 0], [], 1, 0, true, false, 2⟩ true false).2.2.2 rfl rfl
    (by decide)

/-- C5 counterexample: a wire-representable descriptor with
offset = 2^64 - 50 and size = 60 has offset + size (and indeed offset
alone) far beyond the 100-byte mapped video segment, so the claim says
shm_read_packet rejects it with a ConsistencyError and performs no
out-of-bounds read.  But the code's check computes the sum in uint64
arithmetic, where it wraps to 10 and passes: the call does not return
the EINVAL rejection, and the payload copy reads 60 bytes starting at
byte offset 2^64 - 50 — outside the mapped segment. -/
theorem C5_wrapping_descriptor_not_rejected :
    (⟨List.replicate 100 0, [], 1, 0, false, false, 2⟩ :
        DemuxState).shmVideo.length < (2 ^ 64 - 50) + 60 ∧
    (shm_read_packet frameHeaderSizeBytes ⟨0, 60, 0, 2 ^ 64 - 50⟩ true
      ⟨List.replicate 100 0, [], 1, 0, false, false, 2⟩).1 ≠
        ReadResult.rErr EINVAL ∧
    ConsEvent.memRead Chan.video (2 ^ 64 - 50) 60 ∈
      (shm_read_packet frameHeaderSizeBytes ⟨0, 60, 0, 2 ^ 64 - 50⟩ true
        ⟨List.replicate 100 0, [], 1, 0, false, false, 2⟩).2 ∧
    (⟨List.replicate 100 0, [], 1, 0, false, false, 2⟩ :
        DemuxState).shmVideo.length < 2 ^ 64 - 50 := by
  decide

/-- C5 amended: shm_read_packet rejects a frame descriptor exactly when
its uint64-wrapped sum (offset + size) mod 2^64 exceeds the mapped
length of its segment: it returns AVERROR(EINVAL) (an ordinary per-frame
error return, not a crash) after posting the empty semaphore to release
the slot, and performs no memory read on the rejection path.  For
descriptors whose true sum offset + size stays below 2^64 (no
wraparound) this check coincides with the claimed one and every read of
a segment stays within the mapped length; the no-out-of-bounds guarantee
does not extend to wrapping descriptors. -/
theorem C5_bounds_rejection (readLen : Nat) (h : FrameHeader)
    (allocOk : Bool) (st : DemuxState)
    (hrl : readLen = frameHeaderSizeBytes) :
    (h.cmdtype = 0 → 0 < st.fullVideo →
      st.shmVideo.length < (h.offset + h.size) % UINT64_MOD →
      (shm_read_packet readLen h allocOk st).1 = ReadResult.rErr EINVAL ∧
      (shm_read_packet readLen h allocOk st).2 =
        [ConsEvent.semWaitFull Chan.video,
         ConsEvent.semPostEmpty Chan.video]) ∧
    (h.cmdtype = 1 → 0 < st.fullAudio →
      st.shmAudio.length < (h.offset + h.size) % UINT64_MOD →
      (shm_read_packet readLen h allocOk st).1 = ReadResult.rErr EINVAL ∧
      (shm_read_packet readLen h allocOk st).2 =
        [ConsEvent.semWaitFull Chan.audio,
         ConsEvent.semPostEmpty Chan.audio]) ∧
    (h.offset + h.size < UINT64_MOD →
      (∀ off len, ConsEvent.memRead Chan.video off len ∈
          (shm_read_packet readLen h allocOk st).2 →
        off + len ≤ st.shmVideo.length) ∧
      (∀ off len, ConsEvent.memRead Chan.audio off len ∈
          (shm_read_packet readLen h allocOk st).2 →
        off + len ≤ st.shmAudio.length)) := by
  subst hrl
  refine ⟨?_, ?_, ?_⟩
  · intro hc hf hb
    have hne : ¬ st.fullVideo = 0 := by omega
    have hgt : (h.offset + h.size) % UINT64_MOD > st.shmVideo.length := hb
    simp [shm_read_packet, hc, hne, hgt]
  · intro hc hf hb
    have hne : ¬ st.fullAudio = 0 := by omega
    have hgt : (h.offset + h.size) % UINT64_MOD > st.shmAudio.length := hb
    simp [shm_read_packet, hc, hne, hgt]
  · intro hnw
    have hmod : (h.offset + h.size) % UINT64_MOD = h.offset + h.size :=
      Nat.mod_eq_of_lt hnw
    constructor
    · intro off len hmem
      simp only [shm_read_packet, hmod] at hmem
      split_ifs at hmem <;> simp_all
    · intro off len hmem
      simp only [shm_read_packet, hmod] at hmem
      split_ifs at hmem <;> simp_all

/-- C5 witness: a descriptor claiming 10 bytes at offset 0 of a 4-byte
video segment (no wraparound: the uint64 sum is 10) is rejected with
EINVAL after releasing the slot. -/
theorem C5_bounds_rejection_witness :
    (shm_read_packet frameHeaderSizeBytes ⟨0, 10, 0, 0⟩ true
      ⟨[0, 0, 0, 0], [], 1, 0, false, false, 2⟩).1 =
        ReadResult.rErr EINVAL ∧
    (shm_read_packet frameHeaderSizeBytes ⟨0, 10, 0, 0⟩ true
      ⟨[0, 0, 0, 0], [], 1, 0, false, false, 2⟩).2 =
        [ConsEvent.semWaitFull Chan.video,
         ConsEvent.semPostEmpty Chan.video] :=
  (C5_bounds_rejection frameHeaderSizeBytes ⟨0, 10, 0, 0⟩ true
    ⟨[0, 0, 0, 0], [], 1, 0, false, false, 2⟩ rfl).1 rfl (by decide)
    (by decide)

/-- C6 counterexample: a full-size record with the unexpected kind tag 3
is not treated as end-of-stream: shm_read_packet returns 0 (success,
with pts/dts set and no payload), not AVERROR_EOF. -/
theorem C6_unknown_kind_returns_success :
    (shm_read_packet frameHeaderSizeBytes ⟨3, 0, 0, 0⟩ true
      ⟨[], [], 1, 1, false, false, 2⟩).1 = ReadResult.rOkNoPayload 0 0 ∧
    (shm_read_packet frameHeaderSizeBytes ⟨3, 0, 0, 0⟩ true
      ⟨[], [], 1, 1, false, false, 2⟩).1 ≠ ReadResult.rEof := by
  decide

/-- C6 amended: a partial descriptor read (fewer or more bytes than one
full FrameHeader record) makes shm_read_packet return AVERROR_EOF with
no slot interaction — never a retry with accumulated bytes and never a
packet; kind tag 2 likewise returns AVERROR_EOF; but a record with an
unexpected kind tag (not 0, 1 or 2) is NOT treated as end-of-stream: the
call returns 0 (success) with pts/dts set and no payload read. -/
theorem C6_protocol_error_handling (readLen : Nat) (h : FrameHeader)
    (allocOk : Bool) (st : DemuxState) :
    (readLen ≠ frameHeaderSizeBytes →
      shm_read_packet readLen h allocOk st = (ReadResult.rEof, [])) ∧
    (readLen = frameHeaderSizeBytes → h.cmdtype = 2 →
      shm_read_packet readLen h allocOk st = (ReadResult.rEof, [])) ∧
    (readLen = frameHeaderSizeBytes → ¬ h.cmdtype = 0 → ¬ h.cmdtype = 1 →
      ¬ h.cmdtype = 2 →
      shm_read_packet readLen h allocOk st =
        (ReadResult.rOkNoPayload h.pts h.pts, [])) := by
  refine ⟨?_, ?_, ?_⟩
  · intro h1
    simp [shm_read_packet, h1]
  · intro h1 h2
    subst h1
    simp [shm_read_packet, h2]
  · intro h1 h2 h3 h4
    subst h1
    simp [shm_read_packet, h2, h3, h4]

/-- C6 witness: a 3-byte partial read yields AVERROR_EOF. -/
theorem C6_protocol_error_handling_witness :
    shm_read_packet 3 ⟨0, 0, 0, 0⟩ true ⟨[], [], 0, 0, false, false, 2⟩ =
      (ReadResult.rEof, []) :=
  (C6_protocol_error_handling 3 ⟨0, 0, 0, 0⟩ true
    ⟨[], [], 0, 0, false, false, 2⟩).1 (by decide)

/-- C8 counterexample: when fstat fails during the consumer's video
setup (all earlier calls succeeded), shm_read_header returns an error
after closing only the shm file descriptor: both semaphores opened
earlier on that path remain open, contradicting the claim that every
resource opened on the failing path is unwound. -/
theorem C8_fstat_leaves_semaphores_open :
    (shm_read_header_video ⟨true, true, true, false, true, true⟩).1 =
      some DemuxSetupErr.fstatE ∧
    (shm_read_header_video
      ⟨true, true, true, false, true, true⟩).2.emptySemOpen = true ∧
    (shm_read_header_video
      ⟨true, true, true, false, true, true⟩).2.fullSemOpen = true := by
  decide

/-- C8 amended: the consumer's shm_open and sem_open failure paths
unwind fully in reverse order (sem_close then close), and the producer's
ftruncate and mmap failure paths unwind fully (close and shm_unlink);
but the consumer's fstat and mmap failure paths close only the shm file
descriptor and leave both already-opened semaphores open. -/
theorem C8_setup_unwind (env : DemuxSetupEnv) (menv : MuxSetupEnv) :
    (env.shmOpenOk = false →
      shm_read_header_video env =
        (some DemuxSetupErr.shmOpenE, ⟨false, false, false, false⟩)) ∧
    (env.shmOpenOk = true → env.semEmptyOk = false →
      shm_read_header_video env =
        (some DemuxSetupErr.semEmptyE, ⟨false, false, false, false⟩)) ∧
    (env.shmOpenOk = true → env.semEmptyOk = true → env.semFullOk = false →
      shm_read_header_video env =
        (some DemuxSetupErr.semFullE, ⟨false, false, false, false⟩)) ∧
    (env.shmOpenOk = true → env.semEmptyOk = true → env.semFullOk = true →
      env.fstatOk = false →
      shm_read_header_video env =
        (some DemuxSetupErr.fstatE, ⟨false, true, true, false⟩)) ∧
    (env.shmOpenOk = true → env.semEmptyOk = true → env.semFullOk = true →
      env.fstatOk = true → env.mmapOk = false →
      shm_read_header_video env =
        (some DemuxSetupErr.mmapE, ⟨false, true, true, false⟩)) ∧
    (menv.shmOpenOk = true → menv.ftruncateOk = false →
      shm_write_header_video_setup menv =
        (some MuxSetupErr.ftruncateE, ⟨false, false, false⟩)) ∧
    (menv.shmOpenOk = true → menv.ftruncateOk = true → menv.mmapOk = false →
      shm_write_header_video_setup menv =
        (some MuxSetupErr.mmapE, ⟨false, false, false⟩)) := by
  refine ⟨?_, ?_, ?_, ?_, ?_, ?_, ?_⟩ <;>
    · intros
      simp_all [shm_read_header_video, shm_write_header_video_setup]

/-- C8 witness: failure to open the full semaphore unwinds the empty
semaphore and the file descriptor. -/
theorem C8_setup_unwind_witness :
    shm_read_header_video ⟨true, true, false, true, true, true⟩ =
      (some DemuxSetupErr.semFullE, ⟨false, false, false, false⟩) :=
  (C8_setup_unwind ⟨true, true, false, true, true, true⟩
    ⟨true, true, true⟩).2.2.1 rfl rfl rfl

end Shmframe
